import Mathlib

/-!
Verification of the crime-reporting system's case workflow.

This file gives a shallow embedding of the case lifecycle implemented in
the repository (complaint schema and save hooks, the status-update and
assignment route handlers, the staff-deactivation handler, the SLA
monitor, and the evidence-file storage/serving handlers) and proves
properties of the embedded operations.  Each definition is translated
from the JavaScript source; the file/line references are given in the
doc comments.  Definitions whose name ends in `Spec` follow the wording
of the written specification instead and exist only for comparison.
-/

namespace CrimeReport

/-- Entry of a case's status history, from statusHistorySchema
(src/unnamed/part_001 lines 18-32): fields status, date, updatedBy
(optional actor reference) and notes (optional).  The schema defines no
field named timestamp, so a timestamp key pushed by a caller
(src/server/routes/cases.js line 125) is dropped by the strict schema
and a read of that path yields undefined. -/
structure StatusHistoryEntry where
  status : String
  date : Nat
  updatedBy : Option Nat := none
  notes : Option String := none
  deriving Repr, DecidableEq

/-- Evidence-file subdocument (src/unnamed/part_001 lines 75-85).  The
data field holds the raw bytes (a Buffer); it is modelled as optional
because the serving route checks for its absence
(src/server/routes/complaints.js line 353). -/
structure EvidenceFile where
  filename : String
  originalName : String
  mimetype : String
  size : Nat
  data : Option (List Nat) := none
  uploadDate : Nat := 0
  deriving Repr, DecidableEq

/-- Case document, from complaintSchema (src/unnamed/part_001 lines
34-123).  Object ids are modelled as naturals.  The slaStatus and
lastSLACheck fields are not declared in the schema; they are the
dynamic fields written by the SLA monitor's update
(src/server/utils/slaMonitor.js lines 99-104) and are carried here so
that the monitor's reads and writes can be stated. -/
structure Complaint where
  id : Nat
  caseId : Option String := none
  userId : Nat
  title : String := ""
  description : String := ""
  crimeType : String := ""
  status : String := "Filed"
  priority : String := "Medium"
  assignedStaff : Option Nat := none
  assignmentDate : Option Nat := none
  statusHistory : List StatusHistoryEntry := []
  evidenceFiles : List EvidenceFile := []
  slaStatus : Option String := none
  lastSLACheck : Option Nat := none
  deriving Repr, DecidableEq

/-- User document, from userSchema (src/unnamed/part_009 lines 4-63):
the fields the case workflow reads (role, status, name, staffId). -/
structure User where
  id : Nat
  name : String := ""
  role : String := "user"
  staffId : String := ""
  status : String := "active"
  deriving Repr, DecidableEq

/-! ## String helpers for the case-number generator -/

/-- Decimal digit character for n % 10. -/
def digitChar (n : Nat) : Char := Char.ofNat (48 + n % 10)

/-- Decimal digits of a positive number, most significant first; the
first argument is fuel that strictly bounds the number of digits. -/
def natDigitsAux : Nat → Nat → List Char
  | 0, _ => []
  | _ + 1, 0 => []
  | fuel + 1, n => natDigitsAux fuel (n / 10) ++ [digitChar n]

/-- Decimal rendering of a natural number, as String(n) renders it. -/
def natToStr (n : Nat) : String :=
  if n = 0 then "0" else String.mk (natDigitsAux (n + 1) n)

/-- Left-pad the decimal rendering of n with zeros to the given width,
as String(n).padStart(width, '0') does (src/unnamed/part_001 lines
139-140 and 153). -/
def padZero (width n : Nat) : String :=
  let s := natToStr n
  String.mk (List.replicate (width - s.length) '0') ++ s

/-- Date string YYYYMMDD built by the caseId save hook
(src/unnamed/part_001 lines 137-140); month0 is the zero-based month
returned by getMonth, to which the hook adds one. -/
def jsDateStr (year month0 day : Nat) : String :=
  natToStr year ++ padZero 2 (month0 + 1) ++ padZero 2 day

/-- Whether the second character list is an initial segment of the
first; used to model the anchored regex test new RegExp('^CASE-...')
(src/unnamed/part_001 line 144). -/
def matchesAtStart : List Char → List Char → Bool
  | _, [] => true
  | [], _ :: _ => false
  | a :: as, b :: bs => a == b && matchesAtStart as bs

/-- Whether the string s starts with the prefix p. -/
def strStartsWith (s p : String) : Bool :=
  matchesAtStart s.toList p.toList

/-- Leading-digits parse of a character list, as parseInt parses a
decimal string: none when the string does not start with a digit. -/
def parseDecimal (cs : List Char) : Option Nat :=
  let ds := cs.takeWhile Char.isDigit
  if ds.isEmpty then none
  else some (ds.foldl (fun acc chr => acc * 10 + (chr.toNat - 48)) 0)

/-- Characters after the last dash of a string, modelling
s.split('-').pop() (src/unnamed/part_001 line 149). -/
def lastDashComponent (s : String) : String :=
  String.mk ((s.toList.reverse.takeWhile (fun ch => ch != '-')).reverse)

/-- Numeric suffix of a case number: parseInt(caseId.split('-').pop())
(src/unnamed/part_001 line 149).  On a suffix that parseInt cannot
parse the source would produce NaN; every case number the system
itself generates has an all-digit suffix, and the model returns 0 in
the unparsable corner. -/
def parseIntSuffix (cid : String) : Nat :=
  (parseDecimal (lastDashComponent cid).toList).getD 0

/-- Lexicographically greatest element of a list of strings, modelling
findOne sorted by caseId descending (src/unnamed/part_001 lines
143-145). -/
def maxCaseId : List String → Option String
  | [] => none
  | c :: cs =>
    match maxCaseId cs with
    | none => some c
    | some m => some (if c < m then m else c)

/-- Case-number generation from the first save hook
(src/unnamed/part_001 lines 135-154): take the greatest existing case
number of the day, parse its numeric suffix, add one (one when the day
has no case yet), pad to four digits. -/
def generateCaseId (dateStr : String) (existing : List String) : String :=
  let dayIds := existing.filter
    (fun cid => strStartsWith cid ("CASE-" ++ dateStr ++ "-"))
  let nextNumber :=
    match maxCaseId dayIds with
    | some cid => parseIntSuffix cid + 1
    | none => 1
  "CASE-" ++ dateStr ++ "-" ++ padZero 4 nextNumber

/-! ## Creation and status updates -/

/-- Save of a new complaint: the first pre-save hook assigns a case
number when none is set (src/unnamed/part_001 lines 136-154; its
status-history branch is skipped because the document is new, line
157), then the second pre-save hook pushes the initial history entry
when the history is empty (src/unnamed/part_001 lines 169-176). -/
def saveNewComplaint (now : Nat) (dateStr : String) (existing : List String)
    (c : Complaint) : Complaint :=
  let c1 :=
    match c.caseId with
    | none => { c with caseId := some (generateCaseId dateStr existing) }
    | some _ => c
  if c1.statusHistory.isEmpty then
    { c1 with statusHistory := [{ status := c1.status, date := now }] }
  else c1

/-- Filing of a new complaint, POST /file
(src/server/routes/complaints.js lines 56-71): the document is built
with the given fields, status defaulting to Filed and an empty history
(schema defaults, src/unnamed/part_001 lines 86-100 and 111), then
saved, which runs both pre-save hooks. -/
def fileComplaint (now : Nat) (dateStr : String) (existing : List String)
    (id userId : Nat) (title description crimeType priority : String)
    (evidence : List EvidenceFile) : Complaint :=
  saveNewComplaint now dateStr existing
    { id := id, userId := userId, title := title, description := description,
      crimeType := crimeType, priority := priority, evidenceFiles := evidence }

/-- Successful status update, PATCH /:caseId/status
(src/server/routes/complaints.js lines 311-319), followed by the first
pre-save hook (src/unnamed/part_001 lines 156-163).  The handler sets
the status and pushes a history entry carrying the actor and notes;
at save time isModified('status') is true exactly when the assigned
value differs from the stored one, in which case the hook pushes a
second entry whose updatedBy is the assigned staff and whose notes are
empty. -/
def updateStatus (now actor : Nat) (newStatus : String) (notes : Option String)
    (c : Complaint) : Complaint :=
  let statusModified : Bool := newStatus != c.status
  let c1 := { c with
    status := newStatus,
    statusHistory := c.statusHistory ++
      [{ status := newStatus, date := now, updatedBy := some actor, notes := notes }] }
  if statusModified then
    { c1 with statusHistory := c1.statusHistory ++
        [{ status := c1.status, date := now, updatedBy := c1.assignedStaff }] }
  else c1

/-- One requested status update: time, actor, target status, notes. -/
structure StatusUpdateReq where
  now : Nat
  actor : Nat
  status : String
  notes : Option String := none
  deriving Repr, DecidableEq

/-- Sequential application of status updates to a case. -/
def applyUpdates (us : List StatusUpdateReq) (c : Complaint) : Complaint :=
  us.foldl (fun acc u => updateStatus u.now u.actor u.status u.notes acc) c

/-- Whether every update in the list targets a status different from
the case's current status at the moment it is applied. -/
def allChangeStatus : List StatusUpdateReq → Complaint → Bool
  | [], _ => true
  | u :: us, c =>
    (u.status != c.status) &&
      allChangeStatus us (updateStatus u.now u.actor u.status u.notes c)

/-! ## Assignment -/

/-- Lookup of a user by object id, modelling User.findById
(src/server/routes/complaints.js line 252, src/server/routes/staff.js
line 257). -/
def findUser (users : List User) (id : Nat) : Option User :=
  users.find? (fun u => u.id == id)

/-- Lookup of a complaint by its case number, modelling
Complaint.findOne({ caseId }) (src/server/routes/complaints.js lines
246 and 298). -/
def findByCaseId (store : List Complaint) (cid : String) : Option Complaint :=
  store.find? (fun c => c.caseId == some cid)

/-- Persisting a saved document back into the collection: the stored
document with the same object id is replaced. -/
def replaceById (store : List Complaint) (c : Complaint) : List Complaint :=
  store.map (fun d => if d.id == c.id then c else d)

/-- Staff validation performed by the assignment route
(src/server/routes/complaints.js line 253): the record must exist, have
role staff and status active. -/
def isValidActiveStaff : Option User → Bool
  | none => false
  | some u => u.role == "staff" && u.status == "active"

/-- Mutation performed by a successful assignment, PATCH
/:caseId/assign (src/server/routes/complaints.js lines 257-268): set
the assigned staff, set the assignment date, force the status to
Assigned, push one history entry whose notes name the assignee, then
save, which runs the first pre-save hook (src/unnamed/part_001 lines
156-163); the hook pushes a second entry when the forced status
differs from the stored one, with updatedBy equal to the assigned
staff.  No check of the case's current status is made anywhere on this
path. -/
def assignedComplaint (now adminId : Nat) (staff : User) (staffId : Nat)
    (c : Complaint) : Complaint :=
  let note := "Assigned to " ++ staff.name ++ " (" ++ staff.staffId ++ ")"
  let statusModified : Bool := "Assigned" != c.status
  let c1 := { c with
    assignedStaff := some staffId,
    assignmentDate := some now,
    status := "Assigned",
    statusHistory := c.statusHistory ++
      [{ status := "Assigned", date := now, updatedBy := some adminId,
         notes := some note }] }
  if statusModified then
    { c1 with statusHistory := c1.statusHistory ++
        [{ status := c1.status, date := now, updatedBy := c1.assignedStaff }] }
  else c1

/-- Error responses of the embedded route handlers (spec section 7
taxonomy; the literal messages are in the handlers). -/
inductive RouteError
  | notFound
  | invalidStaff
  | conflict
  deriving Repr, DecidableEq

/-- Assignment route PATCH /:caseId/assign
(src/server/routes/complaints.js lines 231-279): look up the
complaint (404 when absent), validate the staff record (400 when
missing, not role staff, or not active) and only then mutate and save
the complaint.  Every error return happens before any mutation, so the
store is returned unchanged on error. -/
def assignRoute (now adminId : Nat) (users : List User) (staffId : Nat)
    (cid : String) (store : List Complaint) :
    Option RouteError × List Complaint :=
  match findByCaseId store cid with
  | none => (some .notFound, store)
  | some c =>
    match findUser users staffId with
    | none => (some .invalidStaff, store)
    | some staff =>
      if staff.role == "staff" && staff.status == "active" then
        (none, replaceById store (assignedComplaint now adminId staff staffId c))
      else (some .invalidStaff, store)

/-! ## Staff deactivation -/

/-- Count of cases assigned to the given staff member whose status is
counted as active by the deactivation route: the query uses status
$nin ['Completed', 'Closed'] (src/server/routes/staff.js lines
263-266). -/
def countActiveAssigned (store : List Complaint) (staffId : Nat) : Nat :=
  (store.filter (fun c =>
    c.assignedStaff == some staffId &&
      !(c.status == "Completed" || c.status == "Closed"))).length

/-- Count of cases assigned to the given staff member that are
non-terminal in the sense of the specification, whose terminal states
are Completed, Closed and Rejected (spec section 3).  Defined only for
comparison with countActiveAssigned. -/
def countNonTerminalAssignedSpec (store : List Complaint) (staffId : Nat) : Nat :=
  (store.filter (fun c =>
    c.assignedStaff == some staffId &&
      !(c.status == "Completed" || c.status == "Closed" ||
        c.status == "Rejected"))).length

/-- Replacement of a user record in the user collection. -/
def replaceUser (users : List User) (u : User) : List User :=
  users.map (fun v => if v.id == u.id then u else v)

/-- Staff deactivation route DELETE /:staffId
(src/server/routes/staff.js lines 253-285): 404 when the record is
missing or not role staff; conflict (400) when the staff member has
any assigned case with status outside Completed and Closed, leaving
the collection untouched; otherwise the staff status is set to
inactive and saved. -/
def deleteStaffRoute (users : List User) (store : List Complaint)
    (staffId : Nat) : Option RouteError × List User :=
  match findUser users staffId with
  | none => (some .notFound, users)
  | some staff =>
    if staff.role != "staff" then (some .notFound, users)
    else if countActiveAssigned store staffId > 0 then (some .conflict, users)
    else (none, replaceUser users { staff with status := "inactive" })

/-! ## SLA monitor -/

/-- JavaScript number that may be NaN; every arithmetic step of the
SLA check can produce NaN because the check reads a date field that
does not exist. -/
inductive JSNum
  | nan
  | val (q : ℚ)
  deriving Repr, DecidableEq

/-- Comparison a > b as JavaScript evaluates it: false when a is NaN. -/
def JSNum.gtNum (a : JSNum) (b : ℚ) : Bool :=
  match a with
  | .nan => false
  | .val q => decide (b < q)

/-- Subtraction a - b; NaN propagates. -/
def JSNum.subNum (a : JSNum) (b : ℚ) : JSNum :=
  match a with
  | .nan => .nan
  | .val q => .val (q - b)

/-- Math.max(0, a); Math.max with a NaN argument is NaN. -/
def JSNum.max0 (a : JSNum) : JSNum :=
  match a with
  | .nan => .nan
  | .val q => .val (max 0 q)

/-- Math.round(a * 100) / 100 (src/server/utils/slaMonitor.js line
30); Math.round(x) is the floor of x + 1/2, and NaN propagates. -/
def JSNum.round2 (a : JSNum) : JSNum :=
  match a with
  | .nan => .nan
  | .val q => .val ((round (q * 100) : ℤ) / 100)

/-- SLA threshold table in hours (src/server/utils/slaMonitor.js lines
4-9); statuses outside the table have no threshold. -/
def SLA_THRESHOLDS : String → Option Nat
  | "Filed" => some 24
  | "Assigned" => some 72
  | "Under Investigation" => some 168
  | "Evidence Collected" => some 24
  | _ => none

/-- Value of the timestamp property the SLA check reads on a history
entry (src/server/utils/slaMonitor.js line 20).  The statusHistory
schema defines the entry date under the field name date
(src/unnamed/part_001 lines 23-26) and defines no timestamp path, so
this property access yields undefined for every entry. -/
def entryTimestampProp (_e : StatusHistoryEntry) : Option Nat := none

/-- Hours elapsed between now and a possibly-undefined millisecond
timestamp: new Date(undefined) is an invalid date and subtracting it
yields NaN (src/server/utils/slaMonitor.js lines 20-21). -/
def hoursSince (now : Nat) (t : Option Nat) : JSNum :=
  match t with
  | none => .nan
  | some ms => .val (((now : ℤ) - (ms : ℤ) : ℤ) / ((1000 * 60 * 60 : ℤ) : ℚ))

/-- Result record built by checkSLACompliance
(src/server/utils/slaMonitor.js lines 26-34). -/
structure SLACheckResult where
  complaintId : Nat
  caseId : Option String
  currentStatus : String
  hoursElapsed : JSNum
  threshold : Nat
  isOverdue : Bool
  overdueBy : JSNum
  deriving Repr, DecidableEq

/-- checkSLACompliance (src/server/utils/slaMonitor.js lines 12-35):
take the last history entry (null when the history is empty), read its
timestamp property, compute elapsed hours, look up the threshold for
the entry's status (null when none is defined), and report overdue
exactly when elapsed > threshold. -/
def checkSLACompliance (now : Nat) (c : Complaint) : Option SLACheckResult :=
  match c.statusHistory.getLast? with
  | none => none
  | some cur =>
    let elapsed := hoursSince now (entryTimestampProp cur)
    match SLA_THRESHOLDS cur.status with
    | none => none
    | some th =>
      some { complaintId := c.id, caseId := c.caseId,
             currentStatus := cur.status,
             hoursElapsed := elapsed.round2, threshold := th,
             isOverdue := elapsed.gtNum th,
             overdueBy := (elapsed.subNum th).max0 }

/-- SLA check as the specification words it (spec section 4.3 steps
2-4): elapsed hours are measured from the date of the most recently
appended history entry; the case is overdue exactly when elapsed
exceeds the threshold, by elapsed minus threshold hours.  Defined only
for comparison with checkSLACompliance. -/
def checkSLASpec (now : Nat) (c : Complaint) : Option (Bool × ℚ) :=
  match c.statusHistory.getLast? with
  | none => none
  | some cur =>
    match SLA_THRESHOLDS cur.status with
    | none => none
    | some th =>
      let elapsed : ℚ := ((now : ℤ) - (cur.date : ℤ) : ℤ) / ((1000 * 60 * 60 : ℤ) : ℚ)
      some (decide ((th : ℚ) < elapsed), max 0 (elapsed - th))

/-- Statuses monitored by the SLA sweep and counted as active by the
statistics (src/server/utils/slaMonitor.js lines 59 and 115). -/
def monitoredStatuses : List String :=
  ["Filed", "Assigned", "Under Investigation", "Evidence Collected"]

/-- Whether checkSLACompliance reports the case overdue now; a case it
skips is not overdue (src/server/utils/slaMonitor.js lines 66-73). -/
def isOverdueNow (now : Nat) (c : Complaint) : Bool :=
  match checkSLACompliance now c with
  | some r => r.isOverdue
  | none => false

/-- Object ids of the cases the sweep collects as overdue: the active
complaints (status in the monitored set) whose check reports overdue
(src/server/utils/slaMonitor.js lines 58-74). -/
def overdueIds (now : Nat) (store : List Complaint) : List Nat :=
  (((store.filter (fun c => monitoredStatuses.contains c.status)).filter
      (isOverdueNow now)).map (fun c => c.id))

/-- updateSLAStatus (src/server/utils/slaMonitor.js lines 96-109):
findByIdAndUpdate with $set slaStatus Overdue and lastSLACheck now,
for every collected case; no other document is touched and nothing is
ever unset. -/
def updateSLAStatus (now : Nat) (ids : List Nat) (store : List Complaint) :
    List Complaint :=
  store.map (fun c =>
    if ids.contains c.id then
      { c with slaStatus := some "Overdue", lastSLACheck := some now }
    else c)

/-- performSLACheck (src/server/utils/slaMonitor.js lines 55-93): run
the per-case check over the active complaints and persist the overdue
flag on the overdue ones. -/
def performSLACheck (now : Nat) (store : List Complaint) : List Complaint :=
  updateSLAStatus now (overdueIds now store) store

/-- Count of active cases (src/server/utils/slaMonitor.js lines
114-116). -/
def countActive (store : List Complaint) : Nat :=
  (store.filter (fun c => monitoredStatuses.contains c.status)).length

/-- Count of the cases, active or not, whose slaStatus is Overdue
(src/server/utils/slaMonitor.js lines 118-120). -/
def countFlaggedOverdue (store : List Complaint) : Nat :=
  (store.filter (fun c => c.slaStatus == some "Overdue")).length

/-- Compliance rate from getSLAStatistics (src/server/utils/slaMonitor.js
lines 114-154): onTimeCount is totalActive minus the count of ALL
Overdue-flagged cases (JavaScript subtraction, which can go negative),
and the rate is onTimeCount / totalActive * 100, or 100 when there is
no active case. -/
def complianceRate (store : List Complaint) : ℚ :=
  let totalActive := countActive store
  let overdueCount := countFlaggedOverdue store
  let onTimeCount : ℤ := (totalActive : ℤ) - (overdueCount : ℤ)
  if totalActive > 0 then (onTimeCount : ℚ) / (totalActive : ℚ) * 100 else 100

/-- Count of active cases that are not flagged overdue. -/
def countActiveOnTime (store : List Complaint) : Nat :=
  (store.filter (fun c =>
    monitoredStatuses.contains c.status && !(c.slaStatus == some "Overdue"))).length

/-- Count of active cases that are flagged overdue. -/
def countActiveFlagged (store : List Complaint) : Nat :=
  (store.filter (fun c =>
    monitoredStatuses.contains c.status && c.slaStatus == some "Overdue")).length

/-- Compliance rate as the claim words it: the count of active cases
that are not flagged overdue, divided by the count of active cases,
times 100; 100 when there is no active case.  Defined only for
comparison with complianceRate. -/
def complianceRateSpec (store : List Complaint) : ℚ :=
  if countActive store > 0
  then (countActiveOnTime store : ℚ) / (countActive store : ℚ) * 100
  else 100

/-! ## Evidence files -/

/-- File received from the multipart layer (src/server/routes/complaints.js
lines 40-52): original name, media type, byte size and raw bytes. -/
structure UploadedFile where
  originalname : String
  mimetype : String
  size : Nat
  buffer : List Nat
  deriving Repr, DecidableEq

/-- Storage of one uploaded file as an evidence subdocument
(src/server/routes/complaints.js lines 47-53): the generated unique
filename, the original name, the media type, the byte size and the raw
bytes are stored as given. -/
def storeEvidenceFile (now : Nat) (filename : String) (f : UploadedFile) :
    EvidenceFile :=
  { filename := filename, originalName := f.originalname,
    mimetype := f.mimetype, size := f.size, data := some f.buffer,
    uploadDate := now }

/-- Response of the evidence-serving route. accessDenied is the 403
response the complaint routes use for ownership failures
(src/server/routes/complaints.js line 158); the serving handler never
produces it. -/
inductive ServeResult
  | complaintNotFound
  | fileNotFound
  | dataNotFound
  | accessDenied
  | ok (contentType : String) (contentLength : Nat) (body : List Nat)
  deriving Repr, DecidableEq

/-- Lookup of a complaint by object id, modelling Complaint.findById
(src/server/routes/complaints.js line 341). -/
def findById (store : List Complaint) (id : Nat) : Option Complaint :=
  store.find? (fun c => c.id == id)

/-- Evidence-serving route GET /:complaintId/evidence/:filename
(src/server/routes/complaints.js lines 336-369), run for any
authenticated actor: find the complaint (404), find the first evidence
file with the requested filename (404), check the bytes are present
(404), then respond with the stored media type (falling back to
application/octet-stream when the stored value is empty), the stored
size as content length, and the stored bytes.  The handler never reads
the actor. -/
def serveEvidenceFile (actor : User) (store : List Complaint)
    (complaintId : Nat) (filename : String) : ServeResult :=
  match findById store complaintId with
  | none => .complaintNotFound
  | some c =>
    match c.evidenceFiles.find? (fun f => f.filename == filename) with
    | none => .fileNotFound
    | some f =>
      match f.data with
      | none => .dataNotFound
      | some bytes =>
        .ok (if f.mimetype == "" then "application/octet-stream" else f.mimetype)
          f.size bytes

/-- Helper: a status update sets the case's current status to the target. -/
theorem updateStatus_status (now actor : Nat) (s : String) (notes : Option String)
    (c : Complaint) : (updateStatus now actor s notes c).status = s := by
  unfold updateStatus
  by_cases h : (s != c.status) = true
  · simp [h]
  · simp [h]

/-- Helper: after a status update the last history entry carries the target status. -/
theorem updateStatus_getLast_status (now actor : Nat) (s : String)
    (notes : Option String) (c : Complaint) :
    (updateStatus now actor s notes c).statusHistory.getLast?.map
      (fun e => e.status) = some s := by
  unfold updateStatus
  by_cases h : (s != c.status) = true
  · simp [h, List.getLast?_concat]
  · simp [h, List.getLast?_concat]

/-- Helper: a status update whose target differs from the current status appends two history entries, one from the handler and one from the save hook. -/
theorem updateStatus_length_of_change (now actor : Nat) (s : String)
    (notes : Option String) (c : Complaint) (h : s ≠ c.status) :
    (updateStatus now actor s notes c).statusHistory.length
      = c.statusHistory.length + 2 := by
  unfold updateStatus
  simp [bne_iff_ne, h]

/-- Helper: a sequence of status-changing updates grows the history by two entries per update. -/
theorem applyUpdates_length_of_changes (us : List StatusUpdateReq) (c : Complaint)
    (h : allChangeStatus us c = true) :
    (applyUpdates us c).statusHistory.length
      = c.statusHistory.length + 2 * us.length := by
  induction us generalizing c with
  | nil => simp [applyUpdates]
  | cons u us ih =>
    rw [allChangeStatus, Bool.and_eq_true, bne_iff_ne] at h
    obtain ⟨h1, h2⟩ := h
    have step : applyUpdates (u :: us) c
        = applyUpdates us (updateStatus u.now u.actor u.status u.notes c) := rfl
    rw [step, ih _ h2, updateStatus_length_of_change _ _ _ _ _ h1]
    simp [List.length_cons]
    ring

/-- Helper: the last-entry-status invariant is preserved by any sequence of updates. -/
theorem applyUpdates_getLast_status (us : List StatusUpdateReq) (c : Complaint)
    (h : c.statusHistory.getLast?.map (fun e => e.status) = some c.status) :
    (applyUpdates us c).statusHistory.getLast?.map (fun e => e.status)
      = some (applyUpdates us c).status := by
  induction us generalizing c with
  | nil => exact h
  | cons u us ih =>
    have step : applyUpdates (u :: us) c
        = applyUpdates us (updateStatus u.now u.actor u.status u.notes c) := rfl
    rw [step]
    exact ih _ (by rw [updateStatus_getLast_status, updateStatus_status])

/-- Helper: a freshly filed complaint has exactly the initial history entry. -/
theorem fileComplaint_statusHistory (now : Nat) (dateStr : String)
    (existing : List String) (id userId : Nat)
    (title description crimeType priority : String)
    (evidence : List EvidenceFile) :
    (fileComplaint now dateStr existing id userId title description crimeType
        priority evidence).statusHistory = [{ status := "Filed", date := now }] := rfl

/-- Helper: a freshly filed complaint has status Filed. -/
theorem fileComplaint_status (now : Nat) (dateStr : String)
    (existing : List String) (id userId : Nat)
    (title description crimeType priority : String)
    (evidence : List EvidenceFile) :
    (fileComplaint now dateStr existing id userId title description crimeType
        priority evidence).status = "Filed" := rfl

/-- C1 (amended): immediately after creation the status history has
exactly one entry and its status equals the case's initial status.  For
a sequence of N status updates in which every update targets a status
different from the case's current one, the history length afterwards is
2N + 1 -- each such update appends TWO entries, one pushed by the route
handler and one pushed by the pre-save hook (the claim's N + 1 fails,
see the counterexample) -- and the last entry's status equals the
case's current status. -/
theorem case_history_audit_amended (now : Nat) (dateStr : String)
    (existing : List String) (id userId : Nat)
    (title description crimeType priority : String) (evidence : List EvidenceFile)
    (us : List StatusUpdateReq)
    (h : allChangeStatus us (fileComplaint now dateStr existing id userId title
        description crimeType priority evidence) = true) :
    (fileComplaint now dateStr existing id userId title description crimeType
        priority evidence).statusHistory.length = 1
    ∧ (fileComplaint now dateStr existing id userId title description crimeType
        priority evidence).statusHistory.head?.map (fun e => e.status)
      = some (fileComplaint now dateStr existing id userId title description
          crimeType priority evidence).status
    ∧ (applyUpdates us (fileComplaint now dateStr existing id userId title
        description crimeType priority evidence)).statusHistory.length
      = 1 + 2 * us.length
    ∧ (applyUpdates us (fileComplaint now dateStr existing id userId title
        description crimeType priority evidence)).statusHistory.getLast?.map
        (fun e => e.status)
      = some (applyUpdates us (fileComplaint now dateStr existing id userId title
          description crimeType priority evidence)).status := by
  refine ⟨by rw [fileComplaint_statusHistory]; rfl, ?_, ?_, ?_⟩
  · rw [fileComplaint_statusHistory, fileComplaint_status]; rfl
  · rw [applyUpdates_length_of_changes _ _ h, fileComplaint_statusHistory]; rfl
  · exact applyUpdates_getLast_status _ _ (by rw [fileComplaint_statusHistory, fileComplaint_status]; rfl)

def c1Filed : Complaint :=
  fileComplaint 0 "20250906" [] 1 10 "t" "d" "Theft/Robbery" "Medium" []

/-- C1 counterexample: the claim says the history length after N
updates is N + 1; after one status update (Filed to Under
Investigation) on a freshly created case the history has three
entries, not two, because both the handler and the pre-save hook push
an entry. -/
theorem case_history_counterexample :
    ¬ ((updateStatus 3600000 5 "Under Investigation" none c1Filed).statusHistory.length
        = 1 + 1) := by decide

/-- C1 witness: the amended theorem instantiated on a concrete freshly
filed case and one status-changing update. -/
theorem case_history_audit_witness :
    allChangeStatus [{ now := 3600000, actor := 5, status := "Assigned" }] c1Filed = true
    ∧ (applyUpdates [{ now := 3600000, actor := 5, status := "Assigned" }] c1Filed).statusHistory.length
        = 1 + 2 * 1 :=
  ⟨by decide,
    (case_history_audit_amended 0 "20250906" [] 1 10 "t" "d" "Theft/Robbery" "Medium" []
      [{ now := 3600000, actor := 5, status := "Assigned" }] (by decide)).2.2.1⟩

def staffSeven : User :=
  { id := 7, name := "Asha", role := "staff", staffId := "STF-001", status := "active" }

def completedCase : Complaint :=
  { id := 21, userId := 10, caseId := some "CASE-20250905-0001", status := "Completed",
    statusHistory := [{ status := "Filed", date := 0 },
                      { status := "Completed", date := 100, updatedBy := some 7 }] }

/-- C3 counterexample: the claim says assignment succeeds only when the
case is not in a terminal state; assigning a valid active staff member
to a case whose status is the terminal Completed succeeds, because
neither assignment route checks the case's current status. -/
theorem assign_terminal_state_counterexample :
    completedCase.status = "Completed"
    ∧ (assignRoute 3600000 9 [staffSeven] 7 "CASE-20250905-0001" [completedCase]).1
        = none := by decide

/-- C3 (amended): assignment via PATCH /:caseId/assign succeeds exactly
when the target staff record exists with role staff and status active;
the case's own state is never checked (a terminal case can be
assigned, see the counterexample).  When the staff validation fails
the route errors before any mutation: the store is returned unchanged,
so no history entry is appended and the assigned-staff reference is
untouched. -/
theorem assign_staff_precondition_amended (now adminId staffId : Nat)
    (users : List User) (cid : String) (store : List Complaint) (c : Complaint)
    (ostaff : Option User)
    (hc : findByCaseId store cid = some c)
    (hu : findUser users staffId = ostaff) :
    (isValidActiveStaff ostaff = false →
      assignRoute now adminId users staffId cid store
        = (some RouteError.invalidStaff, store))
    ∧ (∀ staff : User, ostaff = some staff → staff.role = "staff" →
        staff.status = "active" →
        assignRoute now adminId users staffId cid store
          = (none, replaceById store (assignedComplaint now adminId staff staffId c))) := by
  constructor
  · intro hinv
    unfold assignRoute
    rw [hc, hu]
    cases ostaff with
    | none => rfl
    | some staff =>
      rw [isValidActiveStaff] at hinv
      simp [hinv]
  · intro staff hs hrole hact
    subst hs
    unfold assignRoute
    rw [hc, hu]
    simp [hrole, hact]

/-- C3 witness: the amended theorem instantiated on a concrete store
with a missing staff record; the route reports invalidStaff and the
store is unchanged. -/
theorem assign_staff_precondition_witness :
    findByCaseId [completedCase] "CASE-20250905-0001" = some completedCase
    ∧ findUser [] 7 = (none : Option User)
    ∧ (isValidActiveStaff none = false →
        assignRoute 0 9 [] 7 "CASE-20250905-0001" [completedCase]
          = (some RouteError.invalidStaff, [completedCase])) :=
  ⟨by decide, by decide,
    (assign_staff_precondition_amended 0 9 7 [] "CASE-20250905-0001" [completedCase]
      completedCase none (by decide) (by decide)).1⟩

def c4Filed : Complaint :=
  fileComplaint 0 "20250907" [] 3 10 "t" "d" "Assault" "Medium" []

/-- C4 counterexample: the claim says a successful assignment appends
exactly one history entry; assigning a freshly filed case (status
Filed) appends two entries, the handler's noted entry plus the
pre-save hook's entry. -/
theorem assign_double_entry_counterexample :
    ¬ ((assignedComplaint 3600000 9 staffSeven 7 c4Filed).statusHistory.length
        = c4Filed.statusHistory.length + 1) := by decide

/-- C4 (amended): a successful assignment sets the assigned-staff
reference, sets the assignment timestamp, forces the status to
Assigned regardless of the prior status, and appends the handler's
history entry whose note identifies the assignee -- followed by a
second hook-generated entry whenever the prior status was not already
Assigned, so two entries in that case and exactly one otherwise. -/
theorem assign_success_effects_amended (now adminId staffId : Nat) (staff : User)
    (c : Complaint) (hrole : staff.role = "staff") (hact : staff.status = "active") :
    (assignedComplaint now adminId staff staffId c).assignedStaff = some staffId
    ∧ (assignedComplaint now adminId staff staffId c).assignmentDate = some now
    ∧ (assignedComplaint now adminId staff staffId c).status = "Assigned"
    ∧ (assignedComplaint now adminId staff staffId c).statusHistory.length
        = c.statusHistory.length + (if c.status = "Assigned" then 1 else 2)
    ∧ ((assignedComplaint now adminId staff staffId c).statusHistory.drop
          c.statusHistory.length).head?.map (fun e => e.notes)
        = some (some ("Assigned to " ++ staff.name ++ " (" ++ staff.staffId ++ ")")) := by
  by_cases h : c.status = "Assigned"
  · unfold assignedComplaint
    rw [h]
    simp only [bne_self_eq_false, Bool.false_eq_true, if_false, if_pos rfl]
    refine ⟨trivial, trivial, trivial, by simp, by simp [List.drop_left]⟩
  · unfold assignedComplaint
    have hb : ("Assigned" != c.status) = true := bne_iff_ne.mpr (Ne.symm h)
    simp only [hb, if_true]
    refine ⟨trivial, trivial, trivial, ?_, ?_⟩
    · simp [h]
    · rw [List.append_assoc]
      simp [List.drop_left]

/-- C4 witness: the amended theorem instantiated on a concrete filed
case and active staff member. -/
theorem assign_success_effects_witness :
    staffSeven.role = "staff" ∧ staffSeven.status = "active"
    ∧ (assignedComplaint 3600000 9 staffSeven 7 c4Filed).statusHistory.length
        = c4Filed.statusHistory.length + (if c4Filed.status = "Assigned" then 1 else 2) :=
  ⟨by decide, by decide,
    (assign_success_effects_amended 3600000 9 7 staffSeven c4Filed
      (by decide) (by decide)).2.2.2.1⟩

def staffEight : User :=
  { id := 8, name := "Ravi", role := "staff", staffId := "STF-002", status := "active" }

def rejectedCase : Complaint :=
  { id := 31, userId := 12, caseId := some "CASE-20250901-0001", status := "Rejected",
    assignedStaff := some 8,
    statusHistory := [{ status := "Filed", date := 0 },
                      { status := "Rejected", date := 50, updatedBy := some 8 }] }

/-- C5 counterexample: the claim treats Rejected as terminal, so a
staff member whose only assigned case is Rejected should be
deactivated; the route counts that case as active (its query excludes
only Completed and Closed) and fails with a conflict, leaving the
staff record unchanged. -/
theorem staff_deactivation_rejected_counterexample :
    countNonTerminalAssignedSpec [rejectedCase] 8 = 0
    ∧ deleteStaffRoute [staffEight] [rejectedCase] 8
        = (some RouteError.conflict, [staffEight]) := by decide

/-- C5 (amended): deactivating a staff member fails with a conflict
and leaves the user collection unchanged exactly when the staff member
has an assigned case whose status is outside Completed and Closed --
Rejected cases also block deactivation, contrary to the claim's
terminal set -- and otherwise sets the staff member's status to
inactive. -/
theorem staff_deactivation_amended (users : List User) (store : List Complaint)
    (staffId : Nat) (staff : User) (hu : findUser users staffId = some staff)
    (hrole : staff.role = "staff") :
    (countActiveAssigned store staffId > 0 →
      deleteStaffRoute users store staffId = (some RouteError.conflict, users))
    ∧ (countActiveAssigned store staffId = 0 →
      deleteStaffRoute users store staffId
        = (none, replaceUser users { staff with status := "inactive" })) := by
  constructor
  · intro hpos
    unfold deleteStaffRoute
    rw [hu]
    simp [hrole, hpos, Nat.not_eq_zero_of_lt hpos]
  · intro hzero
    unfold deleteStaffRoute
    rw [hu]
    simp [hrole, hzero]

/-- C5 witness: the amended theorem instantiated on a staff member
whose single assigned case is Rejected; deactivation conflicts. -/
theorem staff_deactivation_witness :
    findUser [staffEight] 8 = some staffEight
    ∧ staffEight.role = "staff"
    ∧ countActiveAssigned [rejectedCase] 8 > 0
    ∧ deleteStaffRoute [staffEight] [rejectedCase] 8
        = (some RouteError.conflict, [staffEight]) :=
  ⟨by decide, by decide, by decide,
    (staff_deactivation_amended [staffEight] [rejectedCase] 8 staffEight
      (by decide) (by decide)).1 (by decide)⟩


/-- C7: the first case filed on 2025-09-06 receives exactly
CASE-20250906-0001 and the second case that day receives
CASE-20250906-0002: the creation date yields the YYYYMMDD block and
the per-day counter starts at 0001 and increments. -/
theorem case_number_daily_counter :
    (fileComplaint 0 (jsDateStr 2025 8 6) [] 1 10 "Stolen bicycle" "d"
        "Theft/Robbery" "Medium" []).caseId = some "CASE-20250906-0001"
    ∧ (fileComplaint 3600000 (jsDateStr 2025 8 6) ["CASE-20250906-0001"] 2 11
        "Fraud report" "d" "Fraud" "Medium" []).caseId
      = some "CASE-20250906-0002" := by decide

def slaFiledOld : Complaint :=
  { id := 41, userId := 13, caseId := some "CASE-20250801-0001", status := "Filed",
    statusHistory := [{ status := "Filed", date := 0 }] }

/-- C2 (code bug): the SLA check reads the timestamp property of the
latest history entry, but the schema stores the entry time under the
field date and defines no timestamp path, so the elapsed time is NaN
for every case: a case in Filed whose latest entry is 25 hours old is
reported NOT overdue (with NaN overdue-by), where the specification's
own computation (checkSLASpec, from the entry's date field) reports
overdue by exactly 1 hour; at 23 hours both agree on not overdue. -/
theorem sla_timestamp_field_bug :
    ((checkSLACompliance (25 * 3600000) slaFiledOld).map (fun r => r.isOverdue)
        = some false)
    ∧ ((checkSLACompliance (25 * 3600000) slaFiledOld).map (fun r => r.overdueBy)
        = some JSNum.nan)
    ∧ checkSLASpec (25 * 3600000) slaFiledOld = some (true, 1)
    ∧ checkSLASpec (23 * 3600000) slaFiledOld = some (false, 0) := by
  have hlast : slaFiledOld.statusHistory.getLast? = some { status := "Filed", date := 0 } := rfl
  have hth : SLA_THRESHOLDS "Filed" = some 24 := rfl
  refine ⟨rfl, rfl, ?_, ?_⟩
  · unfold checkSLASpec
    rw [hlast]
    simp only [hth]
    norm_num [Prod.ext_iff]
  · unfold checkSLASpec
    rw [hlast]
    simp only [hth]
    norm_num [Prod.ext_iff]

def overdueCompletedCase : Complaint :=
  { id := 51, userId := 14, status := "Completed", slaStatus := some "Overdue",
    statusHistory := [{ status := "Completed", date := 0 }] }

def cleanFiledCase : Complaint :=
  { id := 52, userId := 15, status := "Filed",
    statusHistory := [{ status := "Filed", date := 0 }] }

/-- C6 counterexample: with one Completed case flagged Overdue and one
unflagged Filed case, the claim's formula gives 100 (the only active
case is on time) but the code computes 0, because its overdue count
ranges over all flagged cases, active or not. -/
theorem compliance_rate_counterexample :
    complianceRate [overdueCompletedCase, cleanFiledCase] = 0
    ∧ complianceRateSpec [overdueCompletedCase, cleanFiledCase] = 100 := by
  have h1 : countActive [overdueCompletedCase, cleanFiledCase] = 1 := by decide
  have h2 : countFlaggedOverdue [overdueCompletedCase, cleanFiledCase] = 1 := by decide
  have h3 : countActiveOnTime [overdueCompletedCase, cleanFiledCase] = 1 := by decide
  constructor
  · unfold complianceRate
    rw [h1, h2]
    norm_num
  · unfold complianceRateSpec
    rw [h1, h3]
    norm_num

/-- Helper: the active cases split into the flagged and unflagged ones. -/
theorem countActive_split (store : List Complaint) :
    countActive store = countActiveOnTime store + countActiveFlagged store := by
  induction store with
  | nil => rfl
  | cons c cs ih =>
    unfold countActive countActiveOnTime countActiveFlagged at ih ⊢
    by_cases h1 : c.status ∈ monitoredStatuses
    · by_cases h2 : c.slaStatus = some "Overdue"
      · simp [List.filter_cons, h1, h2] at ih ⊢
        omega
      · simp [List.filter_cons, h1, h2] at ih ⊢
        omega
    · simp [List.filter_cons, h1] at ih ⊢
      omega

/-- Helper: when every flagged case is active, the global flagged count equals the active flagged count. -/
theorem countFlagged_of_subset (store : List Complaint)
    (h : ∀ c ∈ store, c.slaStatus = some "Overdue" →
        monitoredStatuses.contains c.status = true) :
    countFlaggedOverdue store = countActiveFlagged store := by
  induction store with
  | nil => rfl
  | cons c cs ih =>
    have hcs : ∀ d ∈ cs, d.slaStatus = some "Overdue" →
        monitoredStatuses.contains d.status = true :=
      fun d hd => h d (List.mem_cons_of_mem _ hd)
    unfold countFlaggedOverdue countActiveFlagged at ih ⊢
    by_cases h2 : c.slaStatus = some "Overdue"
    · have hm : c.status ∈ monitoredStatuses := by
        simpa using h c (List.mem_cons_self c cs) h2
      simp [List.filter_cons, h2, hm, ih hcs]
    · simp [List.filter_cons, h2, ih hcs]

/-- C6 (amended): the compliance rate is (totalActive minus the count
of ALL cases flagged Overdue, active or not) / totalActive * 100, and
100 when there is no active case.  It coincides with the claim's
formula (active non-overdue / active * 100) exactly when every flagged
case is still active; the counterexample shows they differ otherwise. -/
theorem compliance_rate_amended (store : List Complaint)
    (h : ∀ c ∈ store, c.slaStatus = some "Overdue" →
        monitoredStatuses.contains c.status = true) :
    complianceRate store = complianceRateSpec store
    ∧ (countActive store = 0 → complianceRate store = 100) := by
  constructor
  · unfold complianceRate complianceRateSpec
    by_cases hact : countActive store > 0
    · simp only [if_pos hact]
      rw [countFlagged_of_subset store h]
      have hs := countActive_split store
      have hnum : (((countActive store : ℤ) - (countActiveFlagged store : ℤ) : ℤ) : ℚ)
          = (countActiveOnTime store : ℚ) := by
        push_cast [hs]
        ring
      rw [hnum]
    · simp only [if_neg hact]
  · intro hz
    unfold complianceRate
    simp [hz]

/-- C6 witness: the amended theorem instantiated on a store whose
flagged cases (none) are all active. -/
theorem compliance_rate_witness :
    (∀ c ∈ [cleanFiledCase], c.slaStatus = some "Overdue" →
        monitoredStatuses.contains c.status = true)
    ∧ complianceRate [cleanFiledCase] = complianceRateSpec [cleanFiledCase] :=
  ⟨by decide, (compliance_rate_amended [cleanFiledCase] (by decide)).1⟩

/-- Helper: every pair of a list zipped with its map is of the form (x, f x). -/
theorem zip_map_pairs {α : Type} (f : α → α) (l : List α) :
    ∀ p ∈ l.zip (l.map f), p.2 = f p.1 := by
  induction l with
  | nil => intro p hp; simp at hp
  | cons a l ih =>
    intro p hp
    rw [List.map_cons, List.zip_cons_cons, List.mem_cons] at hp
    rcases hp with h | h
    · rw [h]
    · exact ih p h

/-- C8: an SLA sweep never clears or resets the overdue flag: every
case flagged Overdue before the sweep is still flagged Overdue after
it, and when a sweep changes a case's flag at all it only sets it to
Overdue, and only on a case the sweep collected as currently overdue
and monitored. -/
theorem sla_sweep_never_clears (now : Nat) (store : List Complaint) :
    ∀ p ∈ store.zip (performSLACheck now store),
      (p.1.slaStatus = some "Overdue" → p.2.slaStatus = some "Overdue")
      ∧ (p.2.slaStatus ≠ p.1.slaStatus →
          p.2.slaStatus = some "Overdue"
          ∧ (overdueIds now store).contains p.1.id = true) := by
  intro p hp
  have hp2 : p ∈ store.zip (store.map (fun c =>
      if (overdueIds now store).contains c.id then
        { c with slaStatus := some "Overdue", lastSLACheck := some now } else c)) := hp
  have h2 : p.2 = (fun c => if (overdueIds now store).contains c.id then
      { c with slaStatus := some "Overdue", lastSLACheck := some now } else c) p.1 :=
    zip_map_pairs
      (fun c => if (overdueIds now store).contains c.id then
        { c with slaStatus := some "Overdue", lastSLACheck := some now } else c)
      store p hp2
  by_cases hid : p.1.id ∈ overdueIds now store
  · rw [h2]
    simp [hid]
  · rw [h2]
    simp [hid]

def flaggedFiledCase : Complaint :=
  { id := 61, userId := 16, status := "Filed", slaStatus := some "Overdue",
    statusHistory := [{ status := "Filed", date := 0 }] }

/-- C8 witness: the sweep theorem instantiated on a store holding one
flagged Filed case; its flag survives the sweep. -/
theorem sla_sweep_never_clears_witness :
    (flaggedFiledCase, flaggedFiledCase)
      ∈ [flaggedFiledCase].zip (performSLACheck 7200000 [flaggedFiledCase])
    ∧ (flaggedFiledCase.slaStatus = some "Overdue" →
        flaggedFiledCase.slaStatus = some "Overdue") :=
  ⟨by decide,
    ((sla_sweep_never_clears 7200000 [flaggedFiledCase]
      (flaggedFiledCase, flaggedFiledCase) (by decide)).1)⟩

/-- C9: an evidence attachment stored with given bytes, media type and
byte size is returned by a later retrieval under its filename with
exactly the stored bytes as the body, the stored media type as the
content type and the stored byte size as the content length. -/
theorem evidence_round_trip (actor : User) (store : List Complaint)
    (complaintId now : Nat) (c : Complaint) (fname : String) (uf : UploadedFile)
    (hc : findById store complaintId = some c)
    (hf : c.evidenceFiles.find? (fun f => f.filename == fname)
        = some (storeEvidenceFile now fname uf))
    (hm : uf.mimetype ≠ "") :
    serveEvidenceFile actor store complaintId fname
      = ServeResult.ok uf.mimetype uf.size uf.buffer := by
  unfold serveEvidenceFile
  simp [hc, hf, storeEvidenceFile, hm]

def evidenceUpload : UploadedFile :=
  { originalname := "photo.jpg", mimetype := "image/jpeg", size := 3,
    buffer := [10, 20, 30] }

def evidenceCase : Complaint :=
  { id := 71, userId := 17, status := "Filed",
    statusHistory := [{ status := "Filed", date := 0 }],
    evidenceFiles := [storeEvidenceFile 5 "photo-123.jpg" evidenceUpload] }

def citizenActor : User :=
  { id := 99, name := "Mala", role := "user", status := "active" }

/-- C9 witness: the round-trip theorem instantiated on a concrete
stored JPEG of three bytes, retrieved by a citizen actor. -/
theorem evidence_round_trip_witness :
    findById [evidenceCase] 71 = some evidenceCase
    ∧ evidenceCase.evidenceFiles.find? (fun f => f.filename == "photo-123.jpg")
        = some (storeEvidenceFile 5 "photo-123.jpg" evidenceUpload)
    ∧ ("image/jpeg" : String) ≠ ""
    ∧ serveEvidenceFile citizenActor [evidenceCase] 71 "photo-123.jpg"
        = ServeResult.ok "image/jpeg" 3 [10, 20, 30] :=
  ⟨by decide, by decide, by decide,
    evidence_round_trip citizenActor [evidenceCase] 71 5 evidenceCase
      "photo-123.jpg" evidenceUpload (by decide) (by decide) (by decide)⟩

/-- C10: the evidence-retrieval handler performs no ownership or role
check: its result is identical for any two authenticated actors, it
never returns the Access Denied response, and whenever the complaint
and the named stored file exist with bytes present it returns the file
bytes, whoever the actor is. -/
theorem evidence_access_unchecked (a b : User) (store : List Complaint)
    (complaintId : Nat) (fname : String) :
    serveEvidenceFile a store complaintId fname
      = serveEvidenceFile b store complaintId fname
    ∧ serveEvidenceFile a store complaintId fname ≠ ServeResult.accessDenied
    ∧ (∀ c : Complaint, ∀ f : EvidenceFile, ∀ bytes : List Nat,
        findById store complaintId = some c →
        c.evidenceFiles.find? (fun g => g.filename == fname) = some f →
        f.data = some bytes →
        serveEvidenceFile a store complaintId fname
          = ServeResult.ok
              (if f.mimetype == "" then "application/octet-stream" else f.mimetype)
              f.size bytes) := by
  refine ⟨rfl, ?_, ?_⟩
  · unfold serveEvidenceFile
    split
    · simp
    · split
      · simp
      · split
        · simp
        · simp
  · intro c f bytes hcb hf hd
    unfold serveEvidenceFile
    simp [hcb, hf, hd]

/-- C10 witness: the theorem instantiated on a staff actor who is
neither owner nor assignee of the concrete complaint; the bytes are
returned. -/
theorem evidence_access_unchecked_witness :
    findById [evidenceCase] 71 = some evidenceCase
    ∧ serveEvidenceFile staffSeven [evidenceCase] 71 "photo-123.jpg"
        = ServeResult.ok "image/jpeg" 3 [10, 20, 30] :=
  ⟨by decide,
    (evidence_access_unchecked staffSeven citizenActor [evidenceCase] 71
        "photo-123.jpg").2.2 evidenceCase
      (storeEvidenceFile 5 "photo-123.jpg" evidenceUpload) [10, 20, 30]
      (by decide) (by decide) (by decide)⟩

end CrimeReport
